import Mathlib

/-!
Verification of the RPC client layer in `src/rpc/src/client.rs` (pi_net).

The embedding models:
* the frame encoder inlined in `RPCClient::request` (compression selection,
  header byte, big-endian correlation id, timeout byte, body);
* the inbound response-topic handler `topic_handle` installed by
  `RPCClient::connect` (decode, compression dispatch, correlation-table
  lookup, callback invocation, socket closing);
* the correlation table `handlers : Arc<Mutex<FnvHashMap<u32, callback>>>`,
  modelled as an association list with unique keys, shared between the
  client handle and its clones (the `World` / `Handle` split below);
* the keep-alive scheduler `RPCClient::ping` and its self-rechaining timer.

Machine integers are modelled as `Nat` with explicit `% 2 ^ 32` (the `u32`
message-id counter wraps silently) and `% 256` where `u8` truncation
happens. Byte strings are `List Nat`. Panics and out-of-bounds accesses on
the inbound path are modelled as `none` (no defined result). Callbacks are
opaque: the table stores a numeric callback token and the handler reports
which token it invoked and with which `Result` argument.
-/

/-- Modelled from the spec: the constant `UNCOMPRESS` comes from
`mqtt::session`, which is not under `src/`; the protocol comment in
`client.rs` and spec §3/§6 fix the "no compression" algorithm id at 0. -/
def UNCOMPRESS : Nat := 0

/-- Modelled from the spec: the constant `LZ4_BLOCK` comes from
`mqtt::session`, which is not under `src/`; the protocol comment in
`client.rs` and spec §3/§6 fix the "LZ4 block" algorithm id at 2. -/
def LZ4_BLOCK : Nat := 2

/-- Insert with overwrite, as `FnvHashMap::insert` behaves on the
association-list model of the correlation table. -/
def tableInsert (t : List (Nat × Nat)) (k v : Nat) : List (Nat × Nat) :=
  (k, v) :: t.filter (fun p => p.1 != k)

/-- Removal, as `FnvHashMap::remove` behaves on the association-list model. -/
def tableRemove (t : List (Nat × Nat)) (k : Nat) : List (Nat × Nat) :=
  t.filter (fun p => p.1 != k)

/-- The message id read by `topic_handle`:
`u32::from_be(unsafe { *((data[1..4].as_ptr()) as *mut u32) })` loads the
four bytes at offsets 1..4 and byte-swaps them on the little-endian hosts
the crate targets, i.e. it is the big-endian value of bytes 1,2,3,4. -/
def decodeId (data : List Nat) : Nat :=
  data.getD 1 0 * 2 ^ 24 + data.getD 2 0 * 2 ^ 16 + data.getD 3 0 * 2 ^ 8 + data.getD 4 0

/-- The content left in the output buffer `vec_` by
`uncompress(&data[6..], &mut vec_)`: on success the decompressed bytes, on
failure whatever partial output the decompressor produced (spec §4.1); the
code discards the `Result` with `.is_ok()` and uses `vec_` either way.
The external decompressor (from `pi_base`, not under `src/`) is a parameter
`uz`; its `Except.error` value carries the partial output. -/
def uzContent (uz : List Nat → Except (List Nat) (List Nat)) (x : List Nat) : List Nat :=
  match uz x with
  | Except.ok v => v
  | Except.error p => p

/-- Outcome of one invocation of the inbound topic handler:
whether `socket.close(true)` was called, which pending callback (token) was
invoked and with which argument, and the correlation table afterwards. -/
structure HandlerResult where
  closed : Bool
  delivered : Option (Nat × Except Unit (List Nat))
  table1 : List (Nat × Nat)
  deriving Repr

/-- The tail of `topic_handle` after the payload is built: look the message
id up in `handlers`; if present invoke the callback with `Ok(rdata)`,
otherwise `socket.close(true)`; then `handlers.remove(&msg_id)`.
`closed0` records whether the compression match already closed the socket. -/
def dispatch (table : List (Nat × Nat)) (msg_id : Nat) (closed0 : Bool)
    (rdata : List Nat) : HandlerResult :=
  match List.lookup msg_id table with
  | some tok =>
    { closed := closed0, delivered := some (tok, Except.ok rdata),
      table1 := tableRemove table msg_id }
  | none =>
    { closed := true, delivered := none, table1 := tableRemove table msg_id }

/-- The closure `topic_handle` installed on the reserved response topic by
`RPCClient::connect`. `r.unwrap()` panics on a transport error (`none`).
`data[0]`, the unaligned 4-byte read at offset 1, and `&data[5..]` all
require at least 5 bytes; `&data[6..]` in the LZ4 branch requires 6; inputs
below those bounds panic or read out of bounds (`none`). The compression
bits are the top 3 bits of byte 0; bits `UNCOMPRESS` take the payload from
offset 5, bits `LZ4_BLOCK` decompress from offset 6, and any other value
closes the socket and leaves `rdata` empty before the table dispatch. -/
def topic_handle (uz : List Nat → Except (List Nat) (List Nat))
    (r : Except Unit (List Nat)) (table : List (Nat × Nat)) : Option HandlerResult :=
  match r with
  | Except.error _ => none
  | Except.ok data =>
    if 5 ≤ data.length then
      let compress := data.headD 0 >>> 5
      let msg_id := decodeId data
      if compress = UNCOMPRESS then
        some (dispatch table msg_id false (data.drop 5))
      else if compress = LZ4_BLOCK then
        if 6 ≤ data.length then
          some (dispatch table msg_id false (uzContent uz (data.drop 6)))
        else none
      else
        some (dispatch table msg_id true [])
    else none

/-- The codec slice of `topic_handle`: the `(msg_id, payload)` pair a frame
decodes to, without the table dispatch. `none` on too-short input and on
compression bits other than `UNCOMPRESS`/`LZ4_BLOCK` (the handler closes the
connection there instead of producing a payload). -/
def decodeFrame (uz : List Nat → Except (List Nat) (List Nat))
    (data : List Nat) : Option (Nat × List Nat) :=
  if 5 ≤ data.length then
    let compress := data.headD 0 >>> 5
    if compress = UNCOMPRESS then
      some (decodeId data, data.drop 5)
    else if compress = LZ4_BLOCK then
      if 6 ≤ data.length then some (decodeId data, uzContent uz (data.drop 6))
      else none
    else none
  else none

/-- The frame built inline by `RPCClient::request`: choose compression by
`msg.len() > 64` (LZ4-compressing through the external `comp`, raw
otherwise), then `[(compress_vsn << 5) | 0, b1, b2, b3, b4, timeout] ++ body`
with `b1..b4` the big-endian bytes of the `u32` message id. -/
def encodeFrame (comp : List Nat → List Nat) (msg : List Nat)
    (msg_id : Nat) (timeout : Nat) : List Nat :=
  let msg_size := msg.length
  let chosen := if 64 < msg_size then (LZ4_BLOCK, comp msg) else (UNCOMPRESS, msg)
  ((chosen.1 <<< 5) ||| 0) % 256
    :: ((msg_id >>> 24) &&& 0xff)
    :: ((msg_id >>> 16) &&& 0xff)
    :: ((msg_id >>> 8) &&& 0xff)
    :: (msg_id &&& 0xff)
    :: timeout
    :: chosen.2

/-- The shared state behind the `Arc` in `RPCClient.handlers`: every clone
of the client references this same correlation table. -/
structure World where
  handlers : List (Nat × Nat)
  deriving DecidableEq, Repr

/-- The per-handle fields of `RPCClient`: `msg_id : u32` and
`keep_alive : u16` are plain fields, so `#[derive(Clone)]` copies them by
value into each clone. -/
structure Handle where
  msg_id : Nat
  keep_alive : Nat
  deriving DecidableEq, Repr

/-- `RPCClient::clone()` as derived: field-wise copy. The `Arc`-backed
`handlers` table lives in `World` and stays shared; `msg_id` and
`keep_alive` are duplicated. -/
def cloneHandle (h : Handle) : Handle :=
  { msg_id := h.msg_id, keep_alive := h.keep_alive }

/-- `RPCClient::ping`: if `keep_alive > 0`, arm a timer for `keep_alive`
seconds (returned duration); otherwise arm nothing. -/
def ping (keep_alive : Nat) : Option Nat :=
  if 0 < keep_alive then some keep_alive else none

/-- What the armed timer's callback does when it fires: `mqtt.ping()` (a
transport-level ping is issued) and `client.ping()` (re-arm; the captured
clone carries the same `keep_alive`). -/
structure FireResult where
  pinged : Bool
  rearmed : Option Nat
  deriving DecidableEq, Repr

/-- Firing the keep-alive timer armed for a client with this `keep_alive`. -/
def fireTimer (keep_alive : Nat) : FireResult :=
  { pinged := true, rearmed := ping keep_alive }

/-- Number of transport-level pings issued across `n` timer-firing
opportunities of the self-rechaining timer: each opportunity fires only if
a timer is armed, and the firing re-arms via `ping`. -/
def pingChainCount (keep_alive : Nat) : Nat → Nat
  | 0 => 0
  | n + 1 =>
    match ping keep_alive with
    | none => 0
    | some _ => (fireTimer keep_alive).pinged.toNat + pingChainCount keep_alive n

/-- The observable effects of one `RPCClient::request` call. -/
structure RequestEffect where
  pingArmed : Option Nat
  published : List Nat
  inserted : Nat × Nat
  deriving DecidableEq, Repr

/-- `RPCClient::request`: re-arm keep-alive via `ping`, increment the `u32`
counter (silent wrap), build and publish the frame, and register the
callback (token `cbTok`) in the shared table under the new id. -/
def request (comp : List Nat → List Nat) (w : World) (h : Handle)
    (msg : List Nat) (cbTok : Nat) (timeout : Nat) :
    Handle × World × RequestEffect :=
  let pingArmed := ping h.keep_alive
  let msg_id := (h.msg_id + 1) % 2 ^ 32
  let buff := encodeFrame comp msg msg_id timeout
  ( { h with msg_id := msg_id },
    { handlers := tableInsert w.handlers msg_id cbTok },
    { pingArmed := pingArmed, published := buff, inserted := (msg_id, cbTok) } )

/-- `i` successive `request` calls through one handle (same message and
token each time; only the counter and table evolution matter). -/
def iterRequest (comp : List Nat → List Nat) (w : World) (h : Handle)
    (msg : List Nat) (cbTok : Nat) (timeout : Nat) : Nat → World × Handle
  | 0 => (w, h)
  | n + 1 =>
    let wh := iterRequest comp w h msg cbTok timeout n
    let r := request comp wh.1 wh.2 msg cbTok timeout
    (r.2.1, r.1)

/-- A concrete stand-in for the external LZ4 compressor, for closed
evaluations (the compressor is a parameter everywhere it matters). -/
def compNoop : List Nat → List Nat := fun x => x

/-- A concrete decompressor that succeeds with its input unchanged. -/
def uzOk : List Nat → Except (List Nat) (List Nat) := fun x => Except.ok x

/-- A concrete decompressor that rejects every input, leaving the output
buffer empty — the "decompressor rejects the payload" scenario. -/
def uzReject : List Nat → Except (List Nat) (List Nat) := fun _ => Except.error []

theorem lookup_filter_ne_self (k : Nat) (t : List (Nat × Nat)) :
    List.lookup k (t.filter (fun p => p.1 != k)) = none := by
  induction t with
  | nil => rfl
  | cons a t ih =>
    simp only [List.filter]
    by_cases hak : a.1 = k
    · simp [hak, ih]
    · have h1 : (a.1 != k) = true := bne_iff_ne.mpr hak
      rw [h1]
      simp only [List.lookup]
      have h2 : (k == a.1) = false := beq_eq_false_iff_ne.mpr (Ne.symm hak)
      rw [h2]
      exact ih

theorem lookup_tableRemove_self (k : Nat) (t : List (Nat × Nat)) :
    List.lookup k (tableRemove t k) = none :=
  lookup_filter_ne_self k t

theorem tableRemove_tableInsert (t : List (Nat × Nat)) (k v : Nat) :
    tableRemove (tableInsert t k v) k = tableRemove t k := by
  unfold tableRemove tableInsert
  simp [List.filter_filter]

theorem byte_hi (x : Nat) (hx : x < 2 ^ 32) : (x >>> 24) &&& 0xff = x / 2 ^ 24 := by
  rw [Nat.shiftRight_eq_div_pow]
  have h := Nat.and_pow_two_sub_one_eq_mod (x / 2 ^ 24) 8
  norm_num at h
  rw [h]
  omega

theorem byte_mid16 (x : Nat) : (x >>> 16) &&& 0xff = x / 2 ^ 16 % 256 := by
  rw [Nat.shiftRight_eq_div_pow]
  have h := Nat.and_pow_two_sub_one_eq_mod (x / 2 ^ 16) 8
  norm_num at h
  exact h

theorem byte_mid8 (x : Nat) : (x >>> 8) &&& 0xff = x / 2 ^ 8 % 256 := by
  rw [Nat.shiftRight_eq_div_pow]
  have h := Nat.and_pow_two_sub_one_eq_mod (x / 2 ^ 8) 8
  norm_num at h
  exact h

theorem byte_lo (x : Nat) : x &&& 0xff = x % 256 := by
  have h := Nat.and_pow_two_sub_one_eq_mod x 8
  norm_num at h
  exact h

/-- C10: the installed response-topic handler starts with `r.unwrap()`, so
every invocation whose transport result is an error panics (no defined
result); the inbound path is not total over its `Result` input. -/
theorem c10_handler_panics_on_transport_error
    (uz : List Nat → Except (List Nat) (List Nat)) (table : List (Nat × Nat)) :
    topic_handle uz (Except.error ()) table = none := rfl

/-- C6: `request` selects compression solely by comparing the payload
length with the fixed threshold 64: a longer payload gets the `LZ4_BLOCK`
bits and the compressed body, a payload of at most 64 bytes gets the
`UNCOMPRESS` bits and the raw payload as body. -/
theorem c6_compression_threshold (comp : List Nat → List Nat) (msg : List Nat)
    (msg_id timeout : Nat) :
    (encodeFrame comp msg msg_id timeout).headD 0 >>> 5
      = (if 64 < msg.length then LZ4_BLOCK else UNCOMPRESS)
    ∧ (encodeFrame comp msg msg_id timeout).drop 6
      = (if 64 < msg.length then comp msg else msg) := by
  by_cases hm : 64 < msg.length <;>
    simp [encodeFrame, hm, LZ4_BLOCK, UNCOMPRESS]

/-- C1 (code bug): the round-trip fails for payloads of at most 64 bytes.
`request` writes the payload from offset 6, but the handler's `UNCOMPRESS`
branch reads `&data[5..]`, so decoding an encoded frame prepends the
timeout byte to the payload: `encode(1, 7, [1,2,3])` decodes to
`(1, [7,1,2,3])`, not `(1, [1,2,3])`. -/
theorem c1_roundtrip_fails_small_payload :
    encodeFrame compNoop [1, 2, 3] 1 7 = [0, 0, 0, 0, 1, 7, 1, 2, 3]
    ∧ decodeFrame uzOk (encodeFrame compNoop [1, 2, 3] 1 7) = some (1, [7, 1, 2, 3])
    ∧ decodeFrame uzOk (encodeFrame compNoop [1, 2, 3] 1 7) ≠ some (1, [1, 2, 3]) := by
  refine ⟨rfl, rfl, ?_⟩
  decide

/-- C3 counterexample: a 5-byte inbound frame (shorter than 6 bytes) with
compression bits 0 and a pending entry for its id is processed normally —
no failure, no connection close, the callback is invoked with an empty
success payload — contradicting "fails with FrameTooShort and the
connection is closed". -/
theorem c3_counterexample :
    ([0, 0, 0, 0, 1] : List Nat).length < 6
    ∧ topic_handle uzOk (Except.ok [0, 0, 0, 0, 1]) [(1, 7)]
        = some { closed := false, delivered := some (7, Except.ok []), table1 := [] } := by
  exact ⟨by decide, rfl⟩

/-- C3 amended: the handler performs no length validation and has no
FrameTooShort error. Inputs shorter than 5 bytes panic or read out of
bounds; a 5-byte input with block-compression bits panics on `&data[6..]`;
a 5-byte input with compression bits 0 is processed as a normal frame with
an empty payload. -/
theorem c3_amended_no_length_check (uz : List Nat → Except (List Nat) (List Nat))
    (table : List (Nat × Nat)) :
    (∀ data : List Nat, data.length < 5 →
      topic_handle uz (Except.ok data) table = none)
    ∧ (∀ data : List Nat, data.length = 5 → data.headD 0 >>> 5 = LZ4_BLOCK →
      topic_handle uz (Except.ok data) table = none)
    ∧ (∀ data : List Nat, data.length = 5 → data.headD 0 >>> 5 = UNCOMPRESS →
      topic_handle uz (Except.ok data) table
        = some (dispatch table (decodeId data) false [])) := by
  refine ⟨?_, ?_, ?_⟩
  · intro data hlen
    simp only [topic_handle]
    rw [if_neg (by omega)]
  · intro data hlen hbits
    simp only [topic_handle]
    rw [if_pos (by omega), hbits]
    rw [if_neg (by decide), if_pos rfl, if_neg (by omega)]
  · intro data hlen hbits
    simp only [topic_handle]
    rw [if_pos (by omega), hbits, if_pos rfl]
    have hdrop : data.drop 5 = [] := List.drop_eq_nil_of_le (by omega)
    rw [hdrop]

theorem c3_amended_witness :
    topic_handle uzOk (Except.ok [1, 2, 3]) [] = none
    ∧ topic_handle uzOk (Except.ok [64, 0, 0, 0, 1]) [] = none
    ∧ topic_handle uzOk (Except.ok [0, 0, 0, 0, 1]) [(1, 7)]
        = some (dispatch [(1, 7)] 1 false []) := by
  refine ⟨?_, ?_, ?_⟩
  · exact (c3_amended_no_length_check uzOk []).1 [1, 2, 3] (by decide)
  · exact (c3_amended_no_length_check uzOk []).2.1 [64, 0, 0, 0, 1] rfl (by decide)
  · exact (c3_amended_no_length_check uzOk [(1, 7)]).2.2 [0, 0, 0, 0, 1] rfl (by decide)

/-- C4: an inbound frame whose compression bits are neither `UNCOMPRESS`
nor `LZ4_BLOCK` always closes the socket, and no error value is ever
delivered to a pending callback (the handler only ever passes `Ok`
arguments). -/
theorem c4_unsupported_compression_closes
    (uz : List Nat → Except (List Nat) (List Nat)) (data : List Nat)
    (table : List (Nat × Nat)) (h5 : 5 ≤ data.length)
    (hc0 : data.headD 0 >>> 5 ≠ UNCOMPRESS)
    (hc2 : data.headD 0 >>> 5 ≠ LZ4_BLOCK) :
    ∃ r, topic_handle uz (Except.ok data) table = some r
      ∧ r.closed = true
      ∧ ∀ tok e, r.delivered ≠ some (tok, Except.error e) := by
  simp only [topic_handle]
  rw [if_pos h5, if_neg hc0, if_neg hc2]
  refine ⟨dispatch table (decodeId data) true [], rfl, ?_, ?_⟩
  · unfold dispatch
    cases hL : List.lookup (decodeId data) table <;> simp [hL]
  · intro tok e
    unfold dispatch
    cases hL : List.lookup (decodeId data) table <;> simp [hL]

theorem c4_witness :
    ∃ r, topic_handle uzOk (Except.ok [160, 0, 0, 0, 1]) [(1, 7)] = some r
      ∧ r.closed = true
      ∧ ∀ tok e, r.delivered ≠ some (tok, Except.error e) :=
  c4_unsupported_compression_closes uzOk [160, 0, 0, 0, 1] [(1, 7)]
    (by decide) (by decide) (by decide)

/-- C5 counterexample: a block-compressed inbound frame whose payload the
decompressor rejects is NOT connection-fatal: the handler ignores the
`Result` of `uncompress` (`.is_ok();`), does not close the socket, and
delivers the (empty) buffer contents as a success to the pending
callback. -/
theorem c5_counterexample :
    uzReject [9] = Except.error []
    ∧ topic_handle uzReject (Except.ok [64, 0, 0, 0, 1, 0, 9]) [(1, 3)]
        = some { closed := false, delivered := some (3, Except.ok []), table1 := [] } :=
  ⟨rfl, rfl⟩

/-- C5 amended: on a block-compressed inbound frame the handler's behaviour
is independent of whether decompression succeeded: it never closes the
socket for a decompression failure (it closes only when the decoded id has
no pending entry), and it delivers whatever the decompressor left in the
output buffer, wrapped as success, to the pending callback. -/
theorem c5_amended_failure_ignored
    (uz : List Nat → Except (List Nat) (List Nat)) (data : List Nat)
    (table : List (Nat × Nat)) (h6 : 6 ≤ data.length)
    (hb : data.headD 0 >>> 5 = LZ4_BLOCK) :
    topic_handle uz (Except.ok data) table
      = some (dispatch table (decodeId data) false (uzContent uz (data.drop 6)))
    ∧ (dispatch table (decodeId data) false (uzContent uz (data.drop 6))).closed
        = (List.lookup (decodeId data) table).isNone := by
  constructor
  · simp only [topic_handle]
    rw [if_pos (by omega), hb, if_neg (by decide), if_pos rfl, if_pos h6]
  · unfold dispatch
    cases hL : List.lookup (decodeId data) table <;> simp [hL]

theorem c5_amended_witness :
    topic_handle uzReject (Except.ok [64, 0, 0, 0, 1, 0, 9]) [(1, 3)]
      = some (dispatch [(1, 3)] 1 false (uzContent uzReject [9]))
    ∧ (dispatch [(1, 3)] 1 false (uzContent uzReject [9])).closed
        = (List.lookup 1 [(1, 3)]).isNone :=
  c5_amended_failure_ignored uzReject [64, 0, 0, 0, 1, 0, 9] [(1, 3)]
    (by decide) (by decide)

/-- C7: the encoded frame has exactly the documented layout — byte 0 is the
compression bits shifted left by 5 ored with version 0, bytes 1–4 are the
correlation id in big-endian order, byte 5 is the timeout hint, and bytes
6.. are the (raw or compressed) body. -/
theorem c7_frame_layout (comp : List Nat → List Nat) (msg : List Nat)
    (msg_id timeout : Nat) (hid : msg_id < 2 ^ 32) :
    encodeFrame comp msg msg_id timeout
      = (((if 64 < msg.length then LZ4_BLOCK else UNCOMPRESS) <<< 5) ||| 0) % 256
        :: msg_id / 2 ^ 24
        :: msg_id / 2 ^ 16 % 256
        :: msg_id / 2 ^ 8 % 256
        :: msg_id % 256
        :: timeout
        :: (if 64 < msg.length then comp msg else msg) := by
  by_cases hm : 64 < msg.length <;>
    simp only [encodeFrame, hm, if_true, if_false] <;>
    rw [byte_hi msg_id hid, byte_mid16, byte_mid8, byte_lo]

theorem c7_witness :
    encodeFrame compNoop [1] 16909060 9 = [0, 1, 2, 3, 4, 9, 1] := by
  have h := c7_frame_layout compNoop [1] 16909060 9 (by norm_num)
  simpa using h

/-- C2: after one `request` that allocated id `N`, a first inbound frame
carrying id `N` delivers the decoded payload wrapped as success to the
registered callback (exactly once — the handler invokes at most one
callback per frame) and removes the table entry for `N`; a second inbound
frame carrying the same id `N` finds no entry, closes the underlying
connection, and invokes no callback. -/
theorem c2_request_response_scenario (comp : List Nat → List Nat)
    (uz : List Nat → Except (List Nat) (List Nat))
    (w : World) (h : Handle) (msg : List Nat) (cbTok timeout : Nat)
    (data1 data2 : List Nat) (N : Nat)
    (hN : N = (h.msg_id + 1) % 2 ^ 32)
    (h1len : 5 ≤ data1.length) (hb1 : data1.headD 0 >>> 5 = UNCOMPRESS)
    (hid1 : decodeId data1 = N)
    (h2len : 5 ≤ data2.length) (hb2 : data2.headD 0 >>> 5 = UNCOMPRESS)
    (hid2 : decodeId data2 = N) :
    (request comp w h msg cbTok timeout).2.2.inserted = (N, cbTok)
    ∧ ∃ r1 r2,
      topic_handle uz (Except.ok data1)
          (request comp w h msg cbTok timeout).2.1.handlers = some r1
      ∧ r1.delivered = some (cbTok, Except.ok (data1.drop 5))
      ∧ List.lookup N r1.table1 = none
      ∧ topic_handle uz (Except.ok data2) r1.table1 = some r2
      ∧ r2.closed = true
      ∧ r2.delivered = none := by
  have hreq : (request comp w h msg cbTok timeout).2.1.handlers
      = tableInsert w.handlers N cbTok := by
    simp [request, hN]
  have hins : (request comp w h msg cbTok timeout).2.2.inserted = (N, cbTok) := by
    simp [request, hN]
  have hth1 : topic_handle uz (Except.ok data1) (tableInsert w.handlers N cbTok)
      = some (dispatch (tableInsert w.handlers N cbTok) N false (data1.drop 5)) := by
    simp only [topic_handle]
    rw [if_pos h1len, hb1, if_pos rfl, hid1]
  have hdisp1 : dispatch (tableInsert w.handlers N cbTok) N false (data1.drop 5)
      = { closed := false, delivered := some (cbTok, Except.ok (data1.drop 5)),
          table1 := tableRemove w.handlers N } := by
    unfold dispatch
    have hlk : List.lookup N (tableInsert w.handlers N cbTok) = some cbTok := by
      simp [tableInsert, List.lookup]
    rw [hlk, tableRemove_tableInsert]
  have hth2 : topic_handle uz (Except.ok data2) (tableRemove w.handlers N)
      = some (dispatch (tableRemove w.handlers N) N false (data2.drop 5)) := by
    simp only [topic_handle]
    rw [if_pos h2len, hb2, if_pos rfl, hid2]
  have hdisp2 : dispatch (tableRemove w.handlers N) N false (data2.drop 5)
      = { closed := true, delivered := none,
          table1 := tableRemove (tableRemove w.handlers N) N } := by
    unfold dispatch
    rw [lookup_tableRemove_self]
  refine ⟨hins, ?_⟩
  refine ⟨{ closed := false, delivered := some (cbTok, Except.ok (data1.drop 5)),
            table1 := tableRemove w.handlers N },
          { closed := true, delivered := none,
            table1 := tableRemove (tableRemove w.handlers N) N },
          ?_, rfl, ?_, ?_, rfl, rfl⟩
  · rw [hreq, hth1, hdisp1]
  · exact lookup_tableRemove_self N w.handlers
  · rw [hth2, hdisp2]

theorem c2_witness :
    (request compNoop { handlers := [] } { msg_id := 0, keep_alive := 0 }
      [104, 101, 108, 108, 111] 1 5).2.2.inserted = (1, 1)
    ∧ ∃ r1 r2,
      topic_handle uzOk (Except.ok [0, 0, 0, 0, 1, 119, 111, 114, 108, 100])
          (request compNoop { handlers := [] } { msg_id := 0, keep_alive := 0 }
            [104, 101, 108, 108, 111] 1 5).2.1.handlers = some r1
      ∧ r1.delivered
          = some (1, Except.ok (([0, 0, 0, 0, 1, 119, 111, 114, 108, 100] : List Nat).drop 5))
      ∧ List.lookup 1 r1.table1 = none
      ∧ topic_handle uzOk (Except.ok [0, 0, 0, 0, 1, 119, 111, 114, 108, 100])
          r1.table1 = some r2
      ∧ r2.closed = true
      ∧ r2.delivered = none :=
  c2_request_response_scenario compNoop uzOk { handlers := [] }
    { msg_id := 0, keep_alive := 0 } [104, 101, 108, 108, 111] 1 5
    [0, 0, 0, 0, 1, 119, 111, 114, 108, 100]
    [0, 0, 0, 0, 1, 119, 111, 114, 108, 100] 1
    (by norm_num) (by decide) (by decide) (by decide)
    (by decide) (by decide) (by decide)

/-- C8 counterexample: `msg_id` is a plain `u32` field copied by value by
`#[derive(Clone)]`, not part of the `Arc`-shared state. A clone taken from
a client with counter 0 and the original each allocate correlation id 1 on
their next `request` — the same id, with no wrap involved. -/
theorem c8_counterexample :
    (request compNoop { handlers := [] } { msg_id := 0, keep_alive := 0 }
        [1] 1 0).2.2.inserted.1 = 1
    ∧ (request compNoop
        (request compNoop { handlers := [] } { msg_id := 0, keep_alive := 0 }
          [1] 1 0).2.1
        (cloneHandle { msg_id := 0, keep_alive := 0 }) [2] 2 0).2.2.inserted.1 = 1 :=
  ⟨rfl, rfl⟩

/-- C8 amended: the correlation-id counter is a per-handle field copied by
value on clone (only the `handlers` table is shared). Each `request`
increments the calling handle's own counter by one modulo `2 ^ 32`, so
through a single handle starting at 0 the i-th request allocates id
`i % 2 ^ 32`; a clone keeps the counter value it was copied with, so a
request through a clone allocates the same id as a request through the
original at the same counter value. -/
theorem c8_amended_per_handle_counter (comp : List Nat → List Nat)
    (msg : List Nat) (cbTok timeout k : Nat) :
    (∀ i : Nat,
      (iterRequest comp { handlers := [] } { msg_id := 0, keep_alive := k }
          msg cbTok timeout i).2.msg_id = i % 2 ^ 32)
    ∧ (∀ (w : World) (h : Handle),
      (request comp w (cloneHandle h) msg cbTok timeout).2.2.inserted.1
        = (request comp w h msg cbTok timeout).2.2.inserted.1) := by
  constructor
  · intro i
    induction i with
    | zero => simp [iterRequest]
    | succ n ih =>
      simp only [iterRequest, request]
      rw [ih]
      omega
  · intro w h
    rfl

/-- C9: with keep-alive 0, `ping` arms no timer and no ping is ever issued
along the timer chain; with a positive keep-alive, `ping` arms a timer for
`keep_alive` seconds whose firing issues a transport-level ping and
re-arms the timer, and every `request` re-invokes `ping` at its start. -/
theorem c9_keepalive_schedule (k : Nat) :
    (k = 0 → ping k = none ∧ ∀ n, pingChainCount k n = 0)
    ∧ (0 < k → ping k = some k
        ∧ (fireTimer k).pinged = true
        ∧ (fireTimer k).rearmed = some k
        ∧ ∀ n, pingChainCount k n = n)
    ∧ ∀ (comp : List Nat → List Nat) (w : World) (h : Handle)
        (msg : List Nat) (cbTok timeout : Nat),
        (request comp w h msg cbTok timeout).2.2.pingArmed = ping h.keep_alive := by
  refine ⟨?_, ?_, ?_⟩
  · intro hk
    subst hk
    refine ⟨rfl, ?_⟩
    intro n
    cases n <;> rfl
  · intro hk
    have hp : ping k = some k := if_pos hk
    refine ⟨hp, rfl, by simp [fireTimer, hp], ?_⟩
    intro n
    induction n with
    | zero => rfl
    | succ m ih =>
      simp only [pingChainCount, hp, fireTimer, Bool.toNat_true]
      omega
  · intro comp w h msg cbTok timeout
    rfl

theorem c9_witness :
    ping 2 = some 2
    ∧ pingChainCount 2 5 = 5
    ∧ (fireTimer 2).rearmed = some 2
    ∧ ping 0 = none
    ∧ pingChainCount 0 5 = 0 :=
  ⟨((c9_keepalive_schedule 2).2.1 (by decide)).1,
   ((c9_keepalive_schedule 2).2.1 (by decide)).2.2.2 5,
   ((c9_keepalive_schedule 2).2.1 (by decide)).2.2.1,
   ((c9_keepalive_schedule 0).1 rfl).1,
   ((c9_keepalive_schedule 0).1 rfl).2 5⟩
